import Mathlib

/-!
Shallow embedding of `src/service-worker.js` (NeoChat v10 service worker).

The worker's state-bearing operations (Cache Storage API) are modelled as
pure functions over an explicit `CacheStorage` value; each event handler
becomes a Lean function from its inputs (request, network outcome, client
list, message payload, ...) to its observable results.  Asynchronous
operations started by a handler are additionally recorded as lists of
`AsyncOp`, split into those registered with the dispatching event
(via `event.waitUntil` / `event.respondWith`) and those started
fire-and-forget.
-/

namespace NeoChatSW

/-- Request identity as the spec defines it: method + URL. -/
structure Request where
  method : String
  url : String
deriving DecidableEq

/-- Stored response snapshot: status, status text, headers, body. -/
structure Response where
  status : Nat
  statusText : String
  headers : List (String × String)
  body : String
deriving DecidableEq

/-- Cloning a response (`response.clone()`) yields a response with the same
observable fields; on this pure data model it is the identity. -/
def Response.clone (r : Response) : Response := r

/-- Constant `CACHE_NAME` from service-worker.js line 4. -/
def CACHE_NAME : String := "neochat-v10-cache"

/-- Constant `FILES_TO_CACHE` from service-worker.js lines 5-9. -/
def FILES_TO_CACHE : List String := ["/", "/index.html", "/service-worker.js"]

/-- One named cache bucket: its key and its stored request/response pairs. -/
structure CacheBucket where
  name : String
  entries : List (Request × Response)
deriving DecidableEq

/-- Cache Storage: the collection of named buckets, in creation order. -/
abbrev CacheStorage := List CacheBucket

/-- Lookup of a request identity inside one bucket (`cache.match`). -/
def CacheBucket.matchReq (b : CacheBucket) (req : Request) : Option Response :=
  (b.entries.find? (fun e => e.1 == req)).map (fun e => e.2)

/-- Store a response under a request identity (`cache.put`): overwrites any
prior entry for the same identity. -/
def CacheBucket.put (b : CacheBucket) (req : Request) (resp : Response) : CacheBucket :=
  { b with entries := (req, resp) :: b.entries.filter (fun e => e.1 != req) }

/-- Semantics of `caches.open(name)`: returns the storage after the call,
creating an empty bucket with that key only if none exists. -/
def cachesOpen (s : CacheStorage) (name : String) : CacheStorage :=
  if s.any (fun b => b.name == name) then s else s ++ [⟨name, []⟩]

/-- Semantics of `caches.keys()`: the bucket keys in order. -/
def cachesKeys (s : CacheStorage) : List String :=
  s.map (fun b => b.name)

/-- Semantics of `caches.match(request)`: search every bucket in order. -/
def cachesMatch (s : CacheStorage) (req : Request) : Option Response :=
  match s with
  | [] => none
  | b :: rest =>
    match b.matchReq req with
    | some r => some r
    | none => cachesMatch rest req

/-- Opening the named cache and putting an entry into it
(`caches.open(name).then(cache => cache.put(req, resp))`). -/
def cachePutInto (s : CacheStorage) (name : String) (req : Request) (resp : Response) :
    CacheStorage :=
  (cachesOpen s name).map (fun b => if b.name == name then b.put req resp else b)

/-- Lookup of a request in the bucket with the given key, if that bucket exists. -/
def lookupInCache (s : CacheStorage) (name : String) (req : Request) : Option Response :=
  (s.find? (fun b => b.name == name)).bind (fun b => b.matchReq req)

/-- The synthesized offline fallback response built at service-worker.js
lines 64-68. -/
def offlineResponse : Response :=
  { status := 503
    statusText := "Service Unavailable"
    headers := [("Content-Type", "text/plain")]
    body := "Offline - No cached response" }

/-- Observable result of dispatching one fetch event: the response passed to
`event.respondWith` (none when the handler returned without intercepting) and
the cache storage after all writes started by the handler have settled. -/
structure FetchResult where
  responded : Option Response
  cacheState : CacheStorage
deriving DecidableEq

/-- The fetch event listener, service-worker.js lines 44-72.  `network` is the
outcome of `fetch(event.request)`: `.ok resp` when the network resolved,
`.error ()` when it rejected. -/
def fetchHandler (req : Request) (network : Except Unit Response) (s : CacheStorage) :
    FetchResult :=
  if req.method != "GET" then
    { responded := none, cacheState := s }
  else
    match network with
    | .ok response =>
      if response.status == 200 then
        { responded := some response
          cacheState := cachePutInto s CACHE_NAME req response.clone }
      else
        { responded := some response, cacheState := s }
    | .error _ =>
      match cachesMatch s req with
      | some cached => { responded := some cached, cacheState := s }
      | none => { responded := some offlineResponse, cacheState := s }

/-- Whether a response counts as ok for `cache.addAll` (2xx status). -/
def responseOk (r : Response) : Bool :=
  200 ≤ r.status && r.status ≤ 299

/-- Semantics of `cache.addAll(paths)` on the bucket `name`: fetch every path
over the network `net` (`none` = the fetch rejects) and store all of them;
the operation is atomic — if any fetch fails or yields a non-ok response the
whole call rejects and nothing is stored. -/
def cacheAddAll (s : CacheStorage) (name : String) (paths : List String)
    (net : String → Option Response) : Except Unit CacheStorage :=
  if paths.all (fun p =>
      match net p with
      | some r => responseOk r
      | none => false) then
    .ok (paths.foldl (fun st p =>
      match net p with
      | some r => cachePutInto st name { method := "GET", url := p } r
      | none => st) s)
  else
    .error ()

/-- Observable result of the install event. -/
structure InstallResult where
  installSucceeded : Bool
  cacheState : CacheStorage
  attemptedPaths : List String
deriving DecidableEq

/-- The install event listener, service-worker.js lines 12-23: open the
current named cache, `addAll` the seed list, and swallow any `addAll`
failure with `.catch` (only logging), so the install event always completes
successfully. -/
def installHandler (s : CacheStorage) (net : String → Option Response) : InstallResult :=
  match cacheAddAll (cachesOpen s CACHE_NAME) CACHE_NAME FILES_TO_CACHE net with
  | .ok s2 => { installSucceeded := true, cacheState := s2, attemptedPaths := FILES_TO_CACHE }
  | .error _ =>
    { installSucceeded := true
      cacheState := cachesOpen s CACHE_NAME
      attemptedPaths := FILES_TO_CACHE }

/-- The activate event listener's cache effect, service-worker.js lines
26-41: enumerate all bucket keys and delete every bucket whose key differs
from `CACHE_NAME`. -/
def activateHandler (s : CacheStorage) : CacheStorage :=
  s.filter (fun b => b.name == CACHE_NAME)

/-- Notification option fields constructed at service-worker.js lines 78-84. -/
structure NotificationOptions where
  body : String
  icon : String
  badge : String
  tag : String
  requireInteraction : Bool
deriving DecidableEq

/-- A displayed notification: title plus options. -/
structure Notification where
  title : String
  options : NotificationOptions
deriving DecidableEq

/-- The push event listener, service-worker.js lines 75-89.  `payload` is
`some t` when `event.data` is present with text `t`, `none` when the push
carried no data. -/
def pushHandler (payload : Option String) : Notification :=
  { title := "NeoChat"
    options :=
      { body :=
          match payload with
          | some t => t
          | none => "Новое сообщение в NeoChat"
        icon := "/favicon.ico"
        badge := "/favicon.ico"
        tag := "neochat-notification"
        requireInteraction := false } }

/-- An open page handle as seen through `clients.matchAll`: its URL and
whether the handle exposes a focus method (the source guards with
`'focus' in clientList[i]`; on real window clients this is always true). -/
structure Client where
  url : String
  canFocus : Bool
deriving DecidableEq

/-- The single outcome of a notification click. -/
inductive ClickOutcome where
  | focused (c : Client)
  | openedWindow (url : String)
  | noAction
deriving DecidableEq

/-- Observable result of the notificationclick event. -/
structure ClickResult where
  notificationClosed : Bool
  outcome : ClickOutcome
deriving DecidableEq

/-- The loop at service-worker.js lines 99-103: first client whose url is
the root path and which supports focus. -/
def findFocusTarget : List Client → Option Client
  | [] => none
  | c :: rest => if c.url == "/" && c.canFocus then some c else findFocusTarget rest

/-- The notificationclick event listener, service-worker.js lines 92-110:
close the notification, then focus the first root-URL client if one exists,
otherwise open a new window at the root URL (when `clients.openWindow` is
available). -/
def notificationclickHandler (clientList : List Client) (openWindowSupported : Bool) :
    ClickResult :=
  { notificationClosed := true
    outcome :=
      match findFocusTarget clientList with
      | some c => .focused c
      | none => if openWindowSupported then .openedWindow "/" else .noAction }

/-- Structured message payload: an object that may carry a `type` field.
`event.data` itself may be null, modelled as `Option MessageData` at the
handler. -/
structure MessageData where
  typeField : Option String
deriving DecidableEq

/-- The message event listener, service-worker.js lines 113-119: returns
whether `self.skipWaiting()` is called.  The source guard is
`event.data && event.data.type === 'SKIP_WAITING'`. -/
def messageHandler (data : Option MessageData) : Bool :=
  match data with
  | some d => d.typeField == some "SKIP_WAITING"
  | none => false

/-- Kinds of asynchronous operations a handler can start.  The claim about
pending-work registration enumerates cache open, network fetch, cache write,
cache delete and notification display; cache enumeration, cache lookup,
the atomic seed `addAll` and the client-list query are included so the fetch
and lifecycle chains are recorded in full.  (Synchronous-style calls such as
`self.skipWaiting()` and `self.clients.claim()` are outside the claim's
enumerated operation kinds and are not modelled as ops.) -/
inductive AsyncOp where
  | cacheOpen (name : String)
  | networkFetch (req : Request)
  | cachePutOp (name : String) (req : Request)
  | cacheDeleteOp (name : String)
  | showNotificationOp (title : String)
  | cacheKeysOp
  | cacheMatchOp (req : Request)
  | cacheAddAllOp (name : String) (paths : List String)
  | clientsQueryOp
deriving DecidableEq

/-- Async ops of the install handler: the `caches.open(...).then(addAll)`
chain is passed to `event.waitUntil` (lines 14-21), so it is registered. -/
def installOps : List AsyncOp × List AsyncOp :=
  ([.cacheOpen CACHE_NAME, .cacheAddAllOp CACHE_NAME FILES_TO_CACHE], [])

/-- Async ops of the activate handler on storage `s`: the
`caches.keys().then(delete...)` chain is passed to `event.waitUntil`
(lines 28-39), so key enumeration and every stale-bucket delete are
registered. -/
def activateOps (s : CacheStorage) : List AsyncOp × List AsyncOp :=
  (AsyncOp.cacheKeysOp ::
    ((cachesKeys s).filter (fun n => n != CACHE_NAME)).map (fun n => .cacheDeleteOp n), [])

/-- Async ops of the fetch handler.  The promise chain passed to
`event.respondWith` (lines 49-71) contains the network fetch and, on
rejection, the cache lookup — those are registered.  The
`caches.open(CACHE_NAME).then(cache => cache.put(...))` started at lines
55-57 after a 200 response is not part of that chain and is never passed to
`event.waitUntil`: it runs unregistered. -/
def fetchOps (req : Request) (network : Except Unit Response) :
    List AsyncOp × List AsyncOp :=
  if req.method != "GET" then
    ([], [])
  else
    match network with
    | .ok response =>
      if response.status == 200 then
        ([.networkFetch req], [.cacheOpen CACHE_NAME, .cachePutOp CACHE_NAME req])
      else
        ([.networkFetch req], [])
    | .error _ => ([.networkFetch req, .cacheMatchOp req], [])

/-- Async ops of the push handler: `showNotification` is passed to
`event.waitUntil` (lines 86-88), so it is registered. -/
def pushOps : List AsyncOp × List AsyncOp :=
  ([.showNotificationOp "NeoChat"], [])

/-- Async ops of the notificationclick handler: the
`clients.matchAll(...).then(...)` chain is passed to `event.waitUntil`
(lines 96-109), so it is registered. -/
def notificationclickOps : List AsyncOp × List AsyncOp :=
  ([.clientsQueryOp], [])

/-- Async ops of the message handler: it starts none of the enumerated
asynchronous operations. -/
def messageOps : List AsyncOp × List AsyncOp :=
  ([], [])

/-! Helper lemmas about the cache model. -/

theorem CacheBucket.put_name (b : CacheBucket) (req : Request) (r : Response) :
    (b.put req r).name = b.name := rfl

theorem CacheBucket.matchReq_put (b : CacheBucket) (req : Request) (r : Response) :
    (b.put req r).matchReq req = some r := by
  simp [CacheBucket.put, CacheBucket.matchReq]

theorem cachesKeys_cons (b : CacheBucket) (rest : CacheStorage) :
    cachesKeys (b :: rest) = b.name :: cachesKeys rest := rfl

theorem cachesKeys_append (s t : CacheStorage) :
    cachesKeys (s ++ t) = cachesKeys s ++ cachesKeys t := by
  simp [cachesKeys]

theorem exists_name_cachesOpen (s : CacheStorage) (name : String) :
    ∃ b ∈ cachesOpen s name, b.name = name := by
  unfold cachesOpen
  split
  · next h =>
    rcases List.any_eq_true.mp h with ⟨b, hb, hname⟩
    exact ⟨b, hb, by simpa using hname⟩
  · exact ⟨⟨name, []⟩, by simp, rfl⟩

theorem mem_cachesOpen (s : CacheStorage) (name : String) (b : CacheBucket)
    (hb : b ∈ cachesOpen s name) : b ∈ s ∨ b = ⟨name, []⟩ := by
  unfold cachesOpen at hb
  split at hb
  · exact .inl hb
  · rcases List.mem_append.mp hb with h | h
    · exact .inl h
    · exact .inr (by simpa using h)

theorem find?_name_map_putIf (l : List CacheBucket) (name : String) (req : Request)
    (r : Response) :
    (l.map (fun b => if b.name == name then b.put req r else b)).find?
        (fun b => b.name == name)
      = (l.find? (fun b => b.name == name)).map (fun b => b.put req r) := by
  induction l with
  | nil => rfl
  | cons b rest ih =>
    cases h : b.name == name with
    | true =>
      simp only [List.map_cons, List.find?_cons]
      rw [if_pos h, CacheBucket.put_name, h]
      rfl
    | false =>
      have hne : ¬ ((b.name == name) = true) := by simp [h]
      simp only [List.map_cons, List.find?_cons]
      rw [if_neg hne, h]
      exact ih

theorem lookupInCache_cachePutInto (s : CacheStorage) (name : String) (req : Request)
    (r : Response) :
    lookupInCache (cachePutInto s name req r) name req = some r := by
  unfold lookupInCache cachePutInto
  rw [find?_name_map_putIf]
  obtain ⟨b, hb, hname⟩ := exists_name_cachesOpen s name
  have hex : ∃ c ∈ cachesOpen s name, (fun c => c.name == name) c = true :=
    ⟨b, hb, by simp [hname]⟩
  obtain ⟨c, hc⟩ := Option.isSome_iff_exists.mp (List.find?_isSome.mpr hex)
  rw [hc]
  simp [CacheBucket.matchReq_put]

theorem cachesMatch_map_putIf (l : List CacheBucket) (name : String) (req : Request)
    (r : Response)
    (hother : ∀ b ∈ l, b.name ≠ name → b.matchReq req = none)
    (hex : ∃ b ∈ l, b.name = name) :
    cachesMatch (l.map (fun b => if b.name == name then b.put req r else b)) req = some r := by
  induction l with
  | nil => rcases hex with ⟨b, hb, _⟩; cases hb
  | cons b rest ih =>
    cases h : b.name == name with
    | true =>
      simp [cachesMatch, h, CacheBucket.matchReq_put]
    | false =>
      have hne : b.name ≠ name := by simpa using h
      have hm := hother b (List.mem_cons_self b rest) hne
      simp only [List.map_cons, cachesMatch, h, if_neg, Bool.false_eq_true,
        not_false_eq_true, hm]
      apply ih
      · intro b' hb' hb'ne
        exact hother b' (List.mem_cons_of_mem _ hb') hb'ne
      · rcases hex with ⟨c, hc, hcname⟩
        rcases List.mem_cons.mp hc with rfl | hr
        · exact absurd hcname hne
        · exact ⟨c, hr, hcname⟩

theorem cachesMatch_cachePutInto (s : CacheStorage) (name : String) (req : Request)
    (r : Response)
    (hother : ∀ b ∈ s, b.name ≠ name → b.matchReq req = none) :
    cachesMatch (cachePutInto s name req r) req = some r := by
  unfold cachePutInto
  apply cachesMatch_map_putIf
  · intro b hb hbne
    rcases mem_cachesOpen s name b hb with h | h
    · exact hother b h hbne
    · exact absurd (by rw [h]) hbne
  · exact exists_name_cachesOpen s name

theorem cachesKeys_map_putIf (l : List CacheBucket) (name : String) (req : Request)
    (r : Response) :
    cachesKeys (l.map (fun b => if b.name == name then b.put req r else b))
      = cachesKeys l := by
  unfold cachesKeys
  rw [List.map_map]
  apply List.map_congr_left
  intro b _
  cases h : b.name == name <;> simp [Function.comp, h, CacheBucket.put]

theorem cachesKeys_cachePutInto (s : CacheStorage) (name : String) (req : Request)
    (r : Response) :
    cachesKeys (cachePutInto s name req r) = cachesKeys (cachesOpen s name) := by
  unfold cachePutInto
  exact cachesKeys_map_putIf (cachesOpen s name) name req r

theorem mem_keys_cachesOpen_self (s : CacheStorage) (name : String) :
    name ∈ cachesKeys (cachesOpen s name) := by
  obtain ⟨b, hb, hname⟩ := exists_name_cachesOpen s name
  have hm : b.name ∈ cachesKeys (cachesOpen s name) := List.mem_map_of_mem _ hb
  rwa [hname] at hm

theorem mem_keys_cachesOpen_of_mem (s : CacheStorage) (name n : String)
    (h : n ∈ cachesKeys s) : n ∈ cachesKeys (cachesOpen s name) := by
  unfold cachesOpen
  split
  · exact h
  · rw [cachesKeys_append]
    exact List.mem_append_left _ h

theorem mem_keys_cachePutInto_of_mem (s : CacheStorage) (name n : String) (req : Request)
    (r : Response) (h : n ∈ cachesKeys s) :
    n ∈ cachesKeys (cachePutInto s name req r) := by
  rw [cachesKeys_cachePutInto]
  exact mem_keys_cachesOpen_of_mem s name n h

theorem mem_keys_addAll_fold (paths : List String) (net : String → Option Response)
    (name n : String) (st : CacheStorage) (h : n ∈ cachesKeys st) :
    n ∈ cachesKeys (paths.foldl (fun st p =>
      match net p with
      | some r => cachePutInto st name { method := "GET", url := p } r
      | none => st) st) := by
  induction paths generalizing st with
  | nil => exact h
  | cons p rest ih =>
    rw [List.foldl_cons]
    apply ih
    cases hnet : net p with
    | none => exact h
    | some r => exact mem_keys_cachePutInto_of_mem st name n _ r h

theorem findFocusTarget_of_forall_ne (l : List Client)
    (h : ∀ c ∈ l, c.url ≠ "/") : findFocusTarget l = none := by
  induction l with
  | nil => rfl
  | cons c rest ih =>
    have hcond : (c.url == "/" && c.canFocus) = false := by
      simp [h c (List.mem_cons_self c rest)]
    simp only [findFocusTarget, hcond, Bool.false_eq_true, if_neg, not_false_eq_true]
    exact ih fun c' hc' => h c' (List.mem_cons_of_mem _ hc')

theorem findFocusTarget_mem_of_exists (l : List Client)
    (hf : ∀ c ∈ l, c.canFocus = true) (hex : ∃ c ∈ l, c.url = "/") :
    ∃ c ∈ l, c.url = "/" ∧ findFocusTarget l = some c := by
  induction l with
  | nil => rcases hex with ⟨c, hc, _⟩; cases hc
  | cons c rest ih =>
    by_cases hu : c.url = "/"
    · refine ⟨c, List.mem_cons_self c rest, hu, ?_⟩
      simp [findFocusTarget, hu, hf c (List.mem_cons_self c rest)]
    · have hcond : (c.url == "/" && c.canFocus) = false := by simp [hu]
      obtain ⟨d, hd, hdu, hfind⟩ :=
        ih (fun c' hc' => hf c' (List.mem_cons_of_mem _ hc'))
          (by
            rcases hex with ⟨e, he, heu⟩
            rcases List.mem_cons.mp he with rfl | hr
            · exact absurd heu hu
            · exact ⟨e, hr, heu⟩)
      refine ⟨d, List.mem_cons_of_mem _ hd, hdu, ?_⟩
      simp only [findFocusTarget, hcond, Bool.false_eq_true, if_neg, not_false_eq_true]
      exact hfind

/-! Claim theorems. -/

/-- C1: For a fetch event whose request method is GET, if the network fetch
resolves with a status-200 response the handler returns the original response
unmodified and the current named cache (`neochat-v10-cache`) afterwards holds
a clone of that response keyed by the request identity; if the network
resolves with any other status that response is returned unmodified and the
cache storage is unchanged (no entry created). -/
theorem C1_get_200_caches_clone_returns_original (req : Request) (resp : Response)
    (s : CacheStorage) (hm : req.method = "GET") :
    (resp.status = 200 →
      (fetchHandler req (.ok resp) s).responded = some resp ∧
      lookupInCache (fetchHandler req (.ok resp) s).cacheState CACHE_NAME req
        = some resp.clone) ∧
    (resp.status ≠ 200 →
      (fetchHandler req (.ok resp) s).responded = some resp ∧
      (fetchHandler req (.ok resp) s).cacheState = s) := by
  constructor
  · intro h200
    have hres : fetchHandler req (.ok resp) s =
        { responded := some resp
          cacheState := cachePutInto s CACHE_NAME req resp.clone } := by
      simp [fetchHandler, hm, h200]
    rw [hres]
    exact ⟨rfl, lookupInCache_cachePutInto s CACHE_NAME req resp.clone⟩
  · intro hne
    simp [fetchHandler, hm, hne]

/-- Witness for C1: a concrete GET request, a concrete 200 response and the
empty cache storage. -/
theorem C1_get_200_witness :
    (fetchHandler ⟨"GET", "/chat"⟩ (.ok ⟨200, "OK", [], "hello"⟩) []).responded
        = some ⟨200, "OK", [], "hello"⟩ ∧
    lookupInCache
        (fetchHandler ⟨"GET", "/chat"⟩ (.ok ⟨200, "OK", [], "hello"⟩) []).cacheState
        CACHE_NAME ⟨"GET", "/chat"⟩
      = some ⟨200, "OK", [], "hello"⟩ :=
  (C1_get_200_caches_clone_returns_original ⟨"GET", "/chat"⟩ ⟨200, "OK", [], "hello"⟩
    [] rfl).1 rfl

/-- C2: For a GET fetch event whose network fetch rejects, the handler leaves
the cache unchanged and responds with the cached response when the lookup
finds one, and otherwise with the synthesized fallback: status 503, status
text "Service Unavailable", header Content-Type: text/plain and the fixed
plain-text unavailability body — so the event always yields a response. -/
theorem C2_reject_returns_cache_or_503 (req : Request) (s : CacheStorage)
    (hm : req.method = "GET") :
    (fetchHandler req (.error ()) s).cacheState = s ∧
    (∀ r, cachesMatch s req = some r →
      (fetchHandler req (.error ()) s).responded = some r) ∧
    (cachesMatch s req = none →
      (fetchHandler req (.error ()) s).responded = some offlineResponse) ∧
    offlineResponse.status = 503 ∧
    offlineResponse.statusText = "Service Unavailable" ∧
    offlineResponse.headers = [("Content-Type", "text/plain")] ∧
    offlineResponse.body = "Offline - No cached response" ∧
    (fetchHandler req (.error ()) s).responded.isSome = true := by
  cases h : cachesMatch s req with
  | none => simp [fetchHandler, hm, h, offlineResponse]
  | some r => simp [fetchHandler, hm, h, offlineResponse]

/-- Witness for C2: a concrete GET request against the empty cache storage. -/
theorem C2_reject_witness :
    (fetchHandler ⟨"GET", "/x"⟩ (.error ()) []).responded = some offlineResponse ∧
    offlineResponse.status = 503 ∧
    offlineResponse.body = "Offline - No cached response" :=
  ⟨(C2_reject_returns_cache_or_503 ⟨"GET", "/x"⟩ [] rfl).2.2.1 rfl,
   (C2_reject_returns_cache_or_503 ⟨"GET", "/x"⟩ [] rfl).2.2.2.1,
   (C2_reject_returns_cache_or_503 ⟨"GET", "/x"⟩ [] rfl).2.2.2.2.2.2.1⟩

/-- C3: If the current bucket (`neochat-v10-cache`) is present when activation
begins and bucket keys are distinct (as cache storage guarantees), then after
the activate handler completes the enumeration of bucket keys is exactly the
one current key — every differently-keyed bucket is absent. -/
theorem C3_activate_single_current_bucket (s : CacheStorage)
    (h1 : (cachesKeys s).Nodup) (h2 : CACHE_NAME ∈ cachesKeys s) :
    cachesKeys (activateHandler s) = [CACHE_NAME] := by
  induction s with
  | nil => simp [cachesKeys] at h2
  | cons b rest ih =>
    rw [cachesKeys_cons] at h1 h2
    rw [List.nodup_cons] at h1
    by_cases hb : b.name = CACHE_NAME
    · have hrest : rest.filter (fun c => c.name == CACHE_NAME) = [] := by
        rw [List.filter_eq_nil_iff]
        intro c hc
        simp only [beq_iff_eq]
        intro hcname
        have hmem : c.name ∈ cachesKeys rest := List.mem_map_of_mem _ hc
        rw [hcname, ← hb] at hmem
        exact h1.1 hmem
      unfold activateHandler
      rw [List.filter_cons_of_pos (by simp [hb]), cachesKeys_cons, hrest, hb]
      rfl
    · unfold activateHandler
      rw [List.filter_cons_of_neg (by simp [hb])]
      rcases List.mem_cons.mp h2 with h | h
      · exact absurd h.symm hb
      · exact ih h1.2 h

/-- Witness for C3: a storage holding one stale bucket and the current one. -/
theorem C3_activate_witness :
    cachesKeys (activateHandler [⟨"old-cache", []⟩, ⟨CACHE_NAME, []⟩]) = [CACHE_NAME] :=
  C3_activate_single_current_bucket [⟨"old-cache", []⟩, ⟨CACHE_NAME, []⟩]
    (by decide) (by decide)

/-- C4: For a GET request whose network fetch resolved with status 200, once
the asynchronous cache write has settled, a cache lookup (`caches.match`) for
the same request identity returns a stored response whose body equals the
network response body — write-then-read round trip.  The hypothesis that no
differently-named bucket holds an entry for the request reflects the
post-activation storage shape, where only the current bucket exists. -/
theorem C4_roundtrip_read_after_write (req : Request) (resp : Response)
    (s : CacheStorage) (hm : req.method = "GET") (h200 : resp.status = 200)
    (hother : ∀ b ∈ s, b.name ≠ CACHE_NAME → b.matchReq req = none) :
    ∃ r, cachesMatch (fetchHandler req (.ok resp) s).cacheState req = some r ∧
      r.body = resp.body := by
  have hres : (fetchHandler req (.ok resp) s).cacheState
      = cachePutInto s CACHE_NAME req resp.clone := by
    simp [fetchHandler, hm, h200]
  rw [hres]
  exact ⟨resp.clone, cachesMatch_cachePutInto s CACHE_NAME req resp.clone hother, rfl⟩

/-- Witness for C4: a concrete GET request, a 200 response and a storage with
one empty stale bucket. -/
theorem C4_roundtrip_witness :
    ∃ r, cachesMatch
        (fetchHandler ⟨"GET", "/app.js"⟩ (.ok ⟨200, "OK", [], "body-v2"⟩)
          [⟨"stale", []⟩]).cacheState ⟨"GET", "/app.js"⟩
      = some r ∧ r.body = "body-v2" :=
  C4_roundtrip_read_after_write ⟨"GET", "/app.js"⟩ ⟨200, "OK", [], "body-v2"⟩
    [⟨"stale", []⟩] rfl rfl (by decide)

/-- C5: For a fetch event whose request method is not GET, the handler does
not call respondWith (no response provided), leaves the cache storage
unchanged and starts no asynchronous cache or network operation at all. -/
theorem C5_nonget_not_intercepted (req : Request) (network : Except Unit Response)
    (s : CacheStorage) (hm : req.method ≠ "GET") :
    (fetchHandler req network s).responded = none ∧
    (fetchHandler req network s).cacheState = s ∧
    fetchOps req network = ([], []) := by
  have hb : (req.method != "GET") = true := bne_iff_ne.mpr hm
  simp [fetchHandler, fetchOps, hb]

/-- Witness for C5: a concrete POST request. -/
theorem C5_nonget_witness :
    (fetchHandler ⟨"POST", "/api/send"⟩ (.ok ⟨200, "OK", [], "r"⟩) []).responded = none ∧
    (fetchHandler ⟨"POST", "/api/send"⟩ (.ok ⟨200, "OK", [], "r"⟩) []).cacheState = [] ∧
    fetchOps ⟨"POST", "/api/send"⟩ (.ok ⟨200, "OK", [], "r"⟩) = ([], []) :=
  C5_nonget_not_intercepted ⟨"POST", "/api/send"⟩ (.ok ⟨200, "OK", [], "r"⟩) []
    (by decide)

/-- C6 counterexample: the claim that no handler leaves asynchronous work
unregistered is false on the code — for a GET fetch event whose network fetch
resolves with status 200, the cache open and cache write started at
service-worker.js lines 55-57 are not part of the respondWith chain and are
never passed to event.waitUntil, so the fetch handler's unregistered
operation list at this concrete input is nonempty. -/
theorem C6_unregistered_write_counterexample :
    (fetchOps ⟨"GET", "/chat"⟩ (.ok ⟨200, "OK", [], "m"⟩)).2
      = [.cacheOpen CACHE_NAME, .cachePutOp CACHE_NAME ⟨"GET", "/chat"⟩] ∧
    (fetchOps ⟨"GET", "/chat"⟩ (.ok ⟨200, "OK", [], "m"⟩)).2 ≠ [] := by
  constructor <;> decide

/-- C6 (amended): every handler registers its asynchronous work with the
dispatching event (waitUntil / respondWith) with a single exception: the
fetch handler's cache write after a 200 network response (the cache open plus
cache put of lines 55-57), which runs unregistered; every other handler's
unregistered operation list is empty. -/
theorem C6_amended_pending_work_registration (s : CacheStorage) (req : Request)
    (network : Except Unit Response) :
    installOps.2 = [] ∧ (activateOps s).2 = [] ∧ pushOps.2 = [] ∧
    notificationclickOps.2 = [] ∧ messageOps.2 = [] ∧
    (fetchOps req network).2 =
      (if req.method = "GET" then
        (match network with
        | .ok r =>
          if r.status = 200 then
            [AsyncOp.cacheOpen CACHE_NAME, AsyncOp.cachePutOp CACHE_NAME req]
          else []
        | .error _ => [])
      else []) := by
  refine ⟨rfl, rfl, rfl, rfl, rfl, ?_⟩
  by_cases hm : req.method = "GET"
  · have hb : (req.method != "GET") = false := by simp [hm]
    cases network with
    | ok r =>
      by_cases h200 : r.status = 200
      · simp [fetchOps, hb, hm, h200]
      · simp [fetchOps, hb, hm, h200]
    | error e => simp [fetchOps, hb, hm]
  · have hb : (req.method != "GET") = true := bne_iff_ne.mpr hm
    simp [fetchOps, hb, hm]

/-- C7: The install handler opens (creating if absent) the current named
cache, attempts every path of the fixed seed list, and completes the install
event successfully whether or not the seed `addAll` fails — the failure is
swallowed by the catch. -/
theorem C7_install_best_effort (s : CacheStorage) (net : String → Option Response) :
    (installHandler s net).installSucceeded = true ∧
    (installHandler s net).attemptedPaths = ["/", "/index.html", "/service-worker.js"] ∧
    CACHE_NAME ∈ cachesKeys (installHandler s net).cacheState := by
  unfold installHandler
  cases hadd : cacheAddAll (cachesOpen s CACHE_NAME) CACHE_NAME FILES_TO_CACHE net with
  | ok s2 =>
    refine ⟨rfl, rfl, ?_⟩
    unfold cacheAddAll at hadd
    split at hadd
    · cases hadd
      exact mem_keys_addAll_fold FILES_TO_CACHE net CACHE_NAME CACHE_NAME _
        (mem_keys_cachesOpen_self s CACHE_NAME)
    · cases hadd
  | error e =>
    exact ⟨rfl, rfl, mem_keys_cachesOpen_self s CACHE_NAME⟩

/-- C8: Under the platform guarantees that window clients expose focus and
clients.openWindow is available, the notificationclick handler closes the
notification and produces exactly one outcome: when some open client is at
the root URL it focuses such a client (opening nothing), otherwise it opens
exactly one new window at the root URL. -/
theorem C8_click_focus_or_open (clientList : List Client) (openWindowSupported : Bool)
    (hf : ∀ c ∈ clientList, c.canFocus = true) (ho : openWindowSupported = true) :
    (notificationclickHandler clientList openWindowSupported).notificationClosed = true ∧
    ((∃ c ∈ clientList, c.url = "/") →
      ∃ c ∈ clientList, c.url = "/" ∧
        (notificationclickHandler clientList openWindowSupported).outcome
          = ClickOutcome.focused c) ∧
    ((∀ c ∈ clientList, c.url ≠ "/") →
      (notificationclickHandler clientList openWindowSupported).outcome
        = ClickOutcome.openedWindow "/") := by
  refine ⟨rfl, ?_, ?_⟩
  · intro hex
    obtain ⟨c, hc, hcu, hfind⟩ := findFocusTarget_mem_of_exists clientList hf hex
    exact ⟨c, hc, hcu, by simp [notificationclickHandler, hfind]⟩
  · intro hall
    have hnone := findFocusTarget_of_forall_ne clientList hall
    simp [notificationclickHandler, hnone, ho]

/-- Witness for C8: one client list containing a root-URL client, with the
platform hypotheses discharged concretely. -/
theorem C8_click_witness :
    ∃ c ∈ [(⟨"/", true⟩ : Client)], c.url = "/" ∧
      (notificationclickHandler [⟨"/", true⟩] true).outcome = ClickOutcome.focused c :=
  (C8_click_focus_or_open [⟨"/", true⟩] true (by decide) rfl).2.1
    ⟨⟨"/", true⟩, by decide, rfl⟩

/-- C9: The message handler calls skipWaiting exactly when the payload is
non-null and its type field equals "SKIP_WAITING"; any other message — a null
payload or a payload whose type field is absent or different — leaves
skipWaiting uncalled. -/
theorem C9_skip_waiting_iff (data : Option MessageData) :
    messageHandler data = true ↔
      ∃ d, data = some d ∧ d.typeField = some "SKIP_WAITING" := by
  cases data with
  | none => simp [messageHandler]
  | some d => simp [messageHandler]

/-- C10: The displayed push notification's body equals the event's text
payload when present and the fixed default message otherwise, and every push
notification carries the constant deduplication tag "neochat-notification". -/
theorem C10_push_body_and_tag (payload : Option String) (t : String) :
    (pushHandler (some t)).options.body = t ∧
    (pushHandler none).options.body = "Новое сообщение в NeoChat" ∧
    (pushHandler payload).options.tag = "neochat-notification" :=
  ⟨rfl, rfl, rfl⟩

end NeoChatSW
